import Mathlib

/-!
Shallow embedding of `programs/bug-bounty-platform/src/lib.rs` (Anchor/Solana
bug-bounty platform): the vault ledger, the per-report lifecycle state machine
(submit / approve / reject / payout), funding, vault configuration, and
reputation-credential minting.

Modelling conventions:
* `Pubkey` is an abstract identity, modelled as `Nat`.
* `u64` fields are `Nat`; wherever the Rust source performs `checked_add`
  the model checks against `2 ^ 64`, and wherever the source performs a plain
  `+=` on a `u64` the model wraps modulo `2 ^ 64` (release-build semantics of
  unchecked addition).
* Each instruction handler is a pure function from its account state and
  arguments to `Except` of the source's `BugBountyError` (or a transaction
  error that also covers Anchor's account-initialization failure).  A Solana
  transaction that errors is rolled back wholesale, so an `error` result
  carries no new state: `stepOp` below keeps the state unchanged on error.
* The `Clock::get()?.unix_timestamp` value is passed in as an explicit `now`
  argument; account addresses (`key()`) are passed explicitly where the
  handler reads them.
* The SPL-token transfer performed via CPI is an external custody primitive;
  the model records the transferred amount (the handlers' `amount` argument
  to `token::transfer`) instead of tracking token balances.
-/

namespace BugBounty

/-- Abstract Solana account identity (`Pubkey`). -/
abbrev Pubkey := Nat

/-- `2 ^ 64`, the modulus of the source's `u64` counters. -/
def U64_MOD : Nat := 2 ^ 64

/-- A 32-byte IPFS content digest (`[u8; 32]` in the source), carried opaquely. -/
abbrev IpfsHash := List Nat

/-- `SeverityTier` from lib.rs lines 18-24. -/
inductive SeverityTier
  | Critical
  | High
  | Medium
  | Low
deriving DecidableEq, Repr

/-- `ReportStatus` from lib.rs lines 26-32. -/
inductive ReportStatus
  | Pending
  | Approved
  | Rejected
  | Paid
deriving DecidableEq, Repr

/-- `BugBountyVault` account from lib.rs lines 34-57. -/
structure BugBountyVault where
  program_team : Pubkey
  governance_authority : Pubkey
  vault_bump : Nat
  vault_token_account : Pubkey
  critical_reward : Nat
  high_reward : Nat
  medium_reward : Nat
  low_reward : Nat
  total_funded : Nat
  total_paid_out : Nat
  total_reports : Nat
  approved_reports : Nat
  reward_token_mint : Option Pubkey
  vault_active : Bool
  created_at : Int
deriving DecidableEq, Repr

/-- `VulnerabilityReport` account from lib.rs lines 59-76. -/
structure VulnerabilityReport where
  vault : Pubkey
  researcher : Pubkey
  severity : SeverityTier
  status : ReportStatus
  report_ipfs_hash : IpfsHash
  report_bump : Nat
  submitted_at : Int
  approved_at : Option Int
  paid_at : Option Int
  approver : Option Pubkey
  approval_reason : Option String
  payout_amount : Nat
deriving DecidableEq, Repr

/-- `ReputationNFT` account from lib.rs lines 78-86. -/
structure ReputationNFT where
  researcher : Pubkey
  vault : Pubkey
  report : Pubkey
  severity : SeverityTier
  project_name : String
  minted_at : Int
deriving DecidableEq, Repr

/-- `BugBountyError` from lib.rs lines 498-523. -/
inductive BugBountyError
  | VaultInactive
  | NotGovernanceAuthority
  | InvalidReportStatus
  | ReportNotApproved
  | ReportNotPaid
  | UnauthorizedResearcher
  | UnauthorizedTeam
  | ArithmeticOverflow
deriving DecidableEq, Repr

/-- A transaction-level error: either a program error raised by a handler, or
Anchor's account-initialization failure when an `init` account's derived
address already exists (raised by the runtime before the handler body runs). -/
inductive TxError
  | program (e : BugBountyError)
  | accountAlreadyInUse
deriving DecidableEq, Repr

/-- `u64::checked_add`: `some` of the sum when it fits in 64 bits, else `none`. -/
def checked_add (a b : Nat) : Option Nat :=
  if a + b < U64_MOD then some (a + b) else none

/-- The severity-to-reward match of `submit_report` (lib.rs lines 151-156). -/
def reward_for_severity (vault : BugBountyVault) : SeverityTier → Nat
  | SeverityTier.Critical => vault.critical_reward
  | SeverityTier.High => vault.high_reward
  | SeverityTier.Medium => vault.medium_reward
  | SeverityTier.Low => vault.low_reward

/-- `create_bounty_vault` (lib.rs lines 97-129): initializes the vault record.
`program_team` is the signing caller, `governance_authority` and
`vault_token_account` are the supplied accounts, `now` is the clock value. -/
def create_bounty_vault (program_team governance_authority : Pubkey)
    (vault_bump : Nat) (vault_token_account : Pubkey)
    (critical_reward high_reward medium_reward low_reward initial_funding : Nat)
    (reward_token_mint : Option Pubkey) (now : Int) : BugBountyVault :=
  { program_team := program_team
    governance_authority := governance_authority
    vault_bump := vault_bump
    vault_token_account := vault_token_account
    critical_reward := critical_reward
    high_reward := high_reward
    medium_reward := medium_reward
    low_reward := low_reward
    total_funded := initial_funding
    total_paid_out := 0
    total_reports := 0
    approved_reports := 0
    reward_token_mint := reward_token_mint
    vault_active := true
    created_at := now }

/-- `submit_report` (lib.rs lines 132-162).  `researcher` is the signing
caller, `vaultKey` the vault account's address, `report_bump` the bump of the
freshly initialized report account.  On success returns the updated vault and
the new report.  Line 158 is `vault.total_reports += 1` — a plain unchecked
`u64` addition, which wraps modulo `2 ^ 64` in a release build (it is not the
`checked_add ... ok_or(ArithmeticOverflow)` pattern used by `fund_vault`). -/
def submit_report (vault : BugBountyVault) (researcher : Pubkey)
    (severity : SeverityTier) (ipfs_hash : IpfsHash)
    (vaultKey : Pubkey) (report_bump : Nat) (now : Int) :
    Except BugBountyError (BugBountyVault × VulnerabilityReport) :=
  if vault.vault_active then
    let report : VulnerabilityReport :=
      { vault := vaultKey
        researcher := researcher
        severity := severity
        status := ReportStatus.Pending
        report_ipfs_hash := ipfs_hash
        report_bump := report_bump
        submitted_at := now
        approved_at := none
        paid_at := none
        approver := none
        approval_reason := none
        payout_amount := reward_for_severity vault severity }
    Except.ok ({ vault with total_reports := (vault.total_reports + 1) % U64_MOD }, report)
  else
    Except.error BugBountyError.VaultInactive

/-- `approve_report` (lib.rs lines 165-190).  `governance_authority` is the
signing caller.  The handler checks the caller against the vault's recorded
authority, then requires `Pending`, then stamps the report.  Lines 185-186
(`let mut vault_mut = vault.clone(); vault_mut.approved_reports += 1;`)
increment the counter on a local clone that is immediately dropped, and the
`vault` account is not writable in the `ApproveReport` context, so the stored
vault is returned unchanged. -/
def approve_report (vault : BugBountyVault) (report : VulnerabilityReport)
    (governance_authority : Pubkey) (approval_reason : Option String) (now : Int) :
    Except BugBountyError (BugBountyVault × VulnerabilityReport) :=
  if governance_authority = vault.governance_authority then
    if report.status = ReportStatus.Pending then
      Except.ok (vault,
        { report with
            status := ReportStatus.Approved
            approver := some governance_authority
            approved_at := some now
            approval_reason := approval_reason })
    else
      Except.error BugBountyError.InvalidReportStatus
  else
    Except.error BugBountyError.NotGovernanceAuthority

/-- `reject_report` (lib.rs lines 193-214).  Same guards as approve (authority
check first, then `Pending`); stamps approver and the mandatory reason; no
counter is touched. -/
def reject_report (vault : BugBountyVault) (report : VulnerabilityReport)
    (governance_authority : Pubkey) (rejection_reason : String) :
    Except BugBountyError (BugBountyVault × VulnerabilityReport) :=
  if governance_authority = vault.governance_authority then
    if report.status = ReportStatus.Pending then
      Except.ok (vault,
        { report with
            status := ReportStatus.Rejected
            approver := some governance_authority
            approval_reason := some rejection_reason })
    else
      Except.error BugBountyError.InvalidReportStatus
  else
    Except.error BugBountyError.NotGovernanceAuthority

/-- `execute_payout` (lib.rs lines 217-263).  `researcher` is the signing
caller.  Requires `Approved` (else `ReportNotApproved`), then that the caller
is the report's researcher (else `UnauthorizedResearcher`); transfers exactly
`report.payout_amount` via the PDA-signed CPI and advances the report to
`Paid`, stamping `paid_at`.  The vault account is read-only in the
`ExecutePayout` context and the handler never mutates it; the returned `Nat`
is the amount passed to `token::transfer`. -/
def execute_payout (vault : BugBountyVault) (report : VulnerabilityReport)
    (researcher : Pubkey) (now : Int) :
    Except BugBountyError (BugBountyVault × VulnerabilityReport × Nat) :=
  if report.status = ReportStatus.Approved then
    if report.researcher = researcher then
      Except.ok (vault,
        { report with
            status := ReportStatus.Paid
            paid_at := some now },
        report.payout_amount)
    else
      Except.error BugBountyError.UnauthorizedResearcher
  else
    Except.error BugBountyError.ReportNotApproved

/-- The set of already-initialized reputation-credential accounts, identified
by their seed tuple `(report.researcher, report.key())` (the `seeds` of the
`reputation_nft` account in `MintReputationNFT`, lib.rs lines 447-454). -/
structure CredentialStore where
  minted : List (Pubkey × Pubkey)
deriving DecidableEq, Repr

/-- `mint_reputation_nft` (lib.rs lines 266-284) together with the `init`
constraint of its `MintReputationNFT` context (lib.rs lines 441-457).  The
runtime first initializes the credential account at the address derived from
`(report.researcher, report.key())` and fails if that address is already in
use; then the handler requires `report.status == Paid` and fills the record
from the report (the signing `caller` only pays rent and is never read by the
handler). -/
def mint_reputation_nft (store : CredentialStore) (report : VulnerabilityReport)
    (reportKey : Pubkey) (caller : Pubkey) (project_name : String) (now : Int) :
    Except TxError (CredentialStore × ReputationNFT) :=
  if (report.researcher, reportKey) ∈ store.minted then
    Except.error TxError.accountAlreadyInUse
  else if report.status = ReportStatus.Paid then
    Except.ok
      ({ minted := (report.researcher, reportKey) :: store.minted },
       { researcher := report.researcher
         vault := report.vault
         report := reportKey
         severity := report.severity
         project_name := project_name
         minted_at := now })
  else
    Except.error (TxError.program BugBountyError.ReportNotPaid)

/-- `fund_vault` (lib.rs lines 287-309).  The CPI transfer moves `amount` from
the funder to vault custody (value movement is the external custody
primitive's concern); then `total_funded` is increased with `checked_add`,
failing with `ArithmeticOverflow` when the sum would not fit in a `u64` —
in that case the whole transaction, transfer included, is rolled back. -/
def fund_vault (vault : BugBountyVault) (amount : Nat) :
    Except BugBountyError (BugBountyVault × Nat) :=
  match checked_add vault.total_funded amount with
  | some t => Except.ok ({ vault with total_funded := t }, amount)
  | none => Except.error BugBountyError.ArithmeticOverflow

/-- `toggle_vault_status` (lib.rs lines 312-323).  `program_team` is the
signing caller; only the vault's recorded team may flip the active flag. -/
def toggle_vault_status (vault : BugBountyVault) (program_team : Pubkey) :
    Except BugBountyError BugBountyVault :=
  if program_team = vault.program_team then
    Except.ok { vault with vault_active := !vault.vault_active }
  else
    Except.error BugBountyError.UnauthorizedTeam

/-- `update_reward_tiers` (lib.rs lines 326-344).  `program_team` is the
signing caller; only the vault's recorded team may replace the four reward
amounts. -/
def update_reward_tiers (vault : BugBountyVault) (program_team : Pubkey)
    (critical_reward high_reward medium_reward low_reward : Nat) :
    Except BugBountyError BugBountyVault :=
  if program_team = vault.program_team then
    Except.ok
      { vault with
          critical_reward := critical_reward
          high_reward := high_reward
          medium_reward := medium_reward
          low_reward := low_reward }
  else
    Except.error BugBountyError.UnauthorizedTeam

/-! ## System state and operation sequences

For the temporal and frame claims we track one vault, one report submitted
against it, and the set of minted credentials, and apply the program's
instructions to that state.  A Solana transaction that errors is rolled back
wholesale, so a failing instruction leaves the state unchanged. -/

/-- The persistent state touched by the instructions that act on an existing
report: its vault, the report itself, and the credential accounts. -/
structure SysState where
  vault : BugBountyVault
  report : VulnerabilityReport
  store : CredentialStore
deriving DecidableEq, Repr

/-- The instructions that can be applied to an existing report's state (each
carries its signing caller and arguments). -/
inductive Op
  | approve (caller : Pubkey) (reason : Option String) (now : Int)
  | reject (caller : Pubkey) (reason : String) (now : Int)
  | payout (caller : Pubkey) (now : Int)
  | mint (caller : Pubkey) (reportKey : Pubkey) (project_name : String) (now : Int)
  | fund (amount : Nat)
  | toggle (caller : Pubkey)
  | updateTiers (caller : Pubkey) (c h m l : Nat)
deriving DecidableEq, Repr

/-- Apply one instruction to the state; an erroring transaction is rolled
back, leaving the state unchanged. -/
def stepOp (s : SysState) : Op → SysState
  | Op.approve caller reason now =>
    match approve_report s.vault s.report caller reason now with
    | Except.ok (v, r) => { s with vault := v, report := r }
    | Except.error _ => s
  | Op.reject caller reason _now =>
    match reject_report s.vault s.report caller reason with
    | Except.ok (v, r) => { s with vault := v, report := r }
    | Except.error _ => s
  | Op.payout caller now =>
    match execute_payout s.vault s.report caller now with
    | Except.ok (v, r, _amt) => { s with vault := v, report := r }
    | Except.error _ => s
  | Op.mint caller reportKey project_name now =>
    match mint_reputation_nft s.store s.report reportKey caller project_name now with
    | Except.ok (st, _nft) => { s with store := st }
    | Except.error _ => s
  | Op.fund amount =>
    match fund_vault s.vault amount with
    | Except.ok (v, _amt) => { s with vault := v }
    | Except.error _ => s
  | Op.toggle caller =>
    match toggle_vault_status s.vault caller with
    | Except.ok v => { s with vault := v }
    | Except.error _ => s
  | Op.updateTiers caller c h m l =>
    match update_reward_tiers s.vault caller c h m l with
    | Except.ok v => { s with vault := v }
    | Except.error _ => s

/-- The states reached after each instruction of a sequence, in order. -/
def runStates (s : SysState) : List Op → List SysState
  | [] => []
  | op :: ops => stepOp s op :: runStates (stepOp s op) ops

/-- The report statuses reached after each instruction of a sequence. -/
def statusTrace (s : SysState) (ops : List Op) : List ReportStatus :=
  (runStates s ops).map (fun t => t.report.status)

/-- The lifecycle edges of the report state machine: stay put, or one of
`Pending → Approved`, `Pending → Rejected`, `Approved → Paid`. -/
def allowedEdge (a b : ReportStatus) : Prop :=
  a = b
    ∨ (a = ReportStatus.Pending ∧ b = ReportStatus.Approved)
    ∨ (a = ReportStatus.Pending ∧ b = ReportStatus.Rejected)
    ∨ (a = ReportStatus.Approved ∧ b = ReportStatus.Paid)

instance (a b : ReportStatus) : Decidable (allowedEdge a b) := by
  unfold allowedEdge
  infer_instance

/-! ## Concrete fixtures

A small vault (rewards Critical=1000, High=500, Medium=200, Low=50, owned by
team `1` with governance authority `2`) and one High-severity report by
researcher `5`, at the successive stages of its lifecycle. -/

/-- Vault as created by `create_bounty_vault` with the §8 scenario schedule. -/
def testVault : BugBountyVault :=
  create_bounty_vault 1 2 255 10 1000 500 200 50 10000 none 0

/-- `testVault` after one submission. -/
def testVaultAfterSubmit : BugBountyVault :=
  { testVault with total_reports := 1 }

/-- `testVaultAfterSubmit` after the owner raises the High reward to 900. -/
def testVaultHigh900 : BugBountyVault :=
  { testVaultAfterSubmit with high_reward := 900 }

/-- The report produced by submitting a High-severity report to `testVault`. -/
def testReport : VulnerabilityReport :=
  { vault := 7
    researcher := 5
    severity := SeverityTier.High
    status := ReportStatus.Pending
    report_ipfs_hash := [3, 1, 4]
    report_bump := 254
    submitted_at := 1
    approved_at := none
    paid_at := none
    approver := none
    approval_reason := none
    payout_amount := 500 }

/-- `testReport` after governance approval with reason "confirmed". -/
def testApproved : VulnerabilityReport :=
  { testReport with
      status := ReportStatus.Approved
      approver := some 2
      approved_at := some 2
      approval_reason := some "confirmed" }

/-- `testApproved` after payout. -/
def testPaid : VulnerabilityReport :=
  { testApproved with status := ReportStatus.Paid, paid_at := some 3 }

/-- `testReport` after governance rejection. -/
def testRejected : VulnerabilityReport :=
  { testReport with
      status := ReportStatus.Rejected
      approver := some 2
      approval_reason := some "out of scope" }

/-- A credential store with no minted credential. -/
def testStore : CredentialStore := { minted := [] }

/-- The credential store after minting for `testPaid` (report address `7`). -/
def testStoreMinted : CredentialStore := { minted := [(5, 7)] }

/-- The credential minted for `testPaid` at time 4 with label "acme". -/
def testNft : ReputationNFT :=
  { researcher := 5
    vault := 7
    report := 7
    severity := SeverityTier.High
    project_name := "acme"
    minted_at := 4 }

/-! ## Characterization of each handler's successful runs -/

/-- A successful `approve_report` run: the caller was the governance
authority, the report was `Pending`, the stored vault comes back unchanged,
and the report is stamped `Approved`. -/
theorem approve_report_ok_shape {v : BugBountyVault} {r : VulnerabilityReport}
    {c : Pubkey} {reason : Option String} {now : Int}
    {v' : BugBountyVault} {r' : VulnerabilityReport}
    (h : approve_report v r c reason now = Except.ok (v', r')) :
    c = v.governance_authority ∧ r.status = ReportStatus.Pending ∧ v' = v ∧
      r' = { r with
               status := ReportStatus.Approved
               approver := some c
               approved_at := some now
               approval_reason := reason } := by
  unfold approve_report at h
  split_ifs at h with h1 h2
  · simp only [Except.ok.injEq, Prod.mk.injEq] at h
    exact ⟨h1, h2, h.1.symm, h.2.symm⟩

/-- A successful `reject_report` run: governance caller, `Pending` before,
vault untouched, report stamped `Rejected`. -/
theorem reject_report_ok_shape {v : BugBountyVault} {r : VulnerabilityReport}
    {c : Pubkey} {reason : String}
    {v' : BugBountyVault} {r' : VulnerabilityReport}
    (h : reject_report v r c reason = Except.ok (v', r')) :
    c = v.governance_authority ∧ r.status = ReportStatus.Pending ∧ v' = v ∧
      r' = { r with
               status := ReportStatus.Rejected
               approver := some c
               approval_reason := some reason } := by
  unfold reject_report at h
  split_ifs at h with h1 h2
  · simp only [Except.ok.injEq, Prod.mk.injEq] at h
    exact ⟨h1, h2, h.1.symm, h.2.symm⟩

/-- A successful `execute_payout` run: the report was `Approved`, the caller
is its researcher, the vault comes back unchanged, the report is advanced to
`Paid` with `paid_at` stamped, and exactly `payout_amount` is transferred. -/
theorem execute_payout_ok_shape {v : BugBountyVault} {r : VulnerabilityReport}
    {c : Pubkey} {now : Int}
    {v' : BugBountyVault} {r' : VulnerabilityReport} {amt : Nat}
    (h : execute_payout v r c now = Except.ok (v', r', amt)) :
    r.status = ReportStatus.Approved ∧ r.researcher = c ∧ v' = v ∧
      r' = { r with status := ReportStatus.Paid, paid_at := some now } ∧
      amt = r.payout_amount := by
  unfold execute_payout at h
  split_ifs at h with h1 h2
  · simp only [Except.ok.injEq, Prod.mk.injEq] at h
    exact ⟨h1, h2, h.1.symm, h.2.1.symm, h.2.2.symm⟩

/-- A successful `submit_report` run: the vault was active, its
`total_reports` advances (modulo `2 ^ 64`), and the fresh report is `Pending`
with `payout_amount` snapshotted from the vault's current schedule. -/
theorem submit_report_ok_shape {v : BugBountyVault} {res : Pubkey}
    {sev : SeverityTier} {hash : IpfsHash} {vk : Pubkey} {b : Nat} {now : Int}
    {v' : BugBountyVault} {r' : VulnerabilityReport}
    (h : submit_report v res sev hash vk b now = Except.ok (v', r')) :
    v.vault_active = true ∧
      v' = { v with total_reports := (v.total_reports + 1) % U64_MOD } ∧
      r'.status = ReportStatus.Pending ∧
      r'.payout_amount = reward_for_severity v sev := by
  unfold submit_report at h
  split_ifs at h with h1
  · simp only [Except.ok.injEq, Prod.mk.injEq] at h
    exact ⟨h1, h.1.symm, by rw [← h.2], by rw [← h.2]⟩

/-- A successful `mint_reputation_nft` run: no credential existed at the
derived address, the report was `Paid`, the store gains exactly that address,
and the credential copies the report's data (not the caller's identity). -/
theorem mint_reputation_nft_ok_shape {store : CredentialStore}
    {r : VulnerabilityReport} {rk c : Pubkey} {pn : String} {now : Int}
    {store' : CredentialStore} {nft : ReputationNFT}
    (h : mint_reputation_nft store r rk c pn now = Except.ok (store', nft)) :
    (r.researcher, rk) ∉ store.minted ∧ r.status = ReportStatus.Paid ∧
      store' = { minted := (r.researcher, rk) :: store.minted } ∧
      nft = { researcher := r.researcher
              vault := r.vault
              report := rk
              severity := r.severity
              project_name := pn
              minted_at := now } := by
  unfold mint_reputation_nft at h
  split_ifs at h with h1 h2
  simp only [Except.ok.injEq, Prod.mk.injEq] at h
  exact ⟨h1, h2, h.1.symm, h.2.symm⟩

/-! ## Frame lemmas about `stepOp` -/

/-- A failing instruction leaves the state unchanged (transaction rollback),
stated for each operation via its error result. -/
theorem stepOp_approve_error {s : SysState} {c : Pubkey} {reason : Option String}
    {now : Int} {e : BugBountyError}
    (h : approve_report s.vault s.report c reason now = Except.error e) :
    stepOp s (Op.approve c reason now) = s := by
  simp only [stepOp, h]

theorem stepOp_reject_error {s : SysState} {c : Pubkey} {reason : String}
    {now : Int} {e : BugBountyError}
    (h : reject_report s.vault s.report c reason = Except.error e) :
    stepOp s (Op.reject c reason now) = s := by
  simp only [stepOp, h]

theorem stepOp_payout_error {s : SysState} {c : Pubkey} {now : Int}
    {e : BugBountyError}
    (h : execute_payout s.vault s.report c now = Except.error e) :
    stepOp s (Op.payout c now) = s := by
  simp only [stepOp, h]

theorem stepOp_fund_error {s : SysState} {amount : Nat} {e : BugBountyError}
    (h : fund_vault s.vault amount = Except.error e) :
    stepOp s (Op.fund amount) = s := by
  simp only [stepOp, h]

/-- `mint`, `fund`, `toggle` and `updateTiers` never touch the report. -/
theorem stepOp_mint_report (s : SysState) (c rk : Pubkey) (pn : String) (now : Int) :
    (stepOp s (Op.mint c rk pn now)).report = s.report := by
  simp only [stepOp]
  cases h : mint_reputation_nft s.store s.report rk c pn now with
  | ok p => rfl
  | error e => rfl

theorem stepOp_fund_report (s : SysState) (amount : Nat) :
    (stepOp s (Op.fund amount)).report = s.report := by
  simp only [stepOp]
  cases h : fund_vault s.vault amount with
  | ok p => rfl
  | error e => rfl

theorem stepOp_toggle_report (s : SysState) (c : Pubkey) :
    (stepOp s (Op.toggle c)).report = s.report := by
  simp only [stepOp]
  cases h : toggle_vault_status s.vault c with
  | ok p => rfl
  | error e => rfl

theorem stepOp_updateTiers_report (s : SysState) (c : Pubkey) (a b d e : Nat) :
    (stepOp s (Op.updateTiers c a b d e)).report = s.report := by
  simp only [stepOp]
  cases h : update_reward_tiers s.vault c a b d e with
  | ok p => rfl
  | error e => rfl

/-- Every instruction moves the report's status along an allowed lifecycle
edge (or leaves it in place). -/
theorem stepOp_status_edge (s : SysState) (op : Op) :
    allowedEdge s.report.status ((stepOp s op).report).status := by
  cases op with
  | approve c reason now =>
    cases h : approve_report s.vault s.report c reason now with
    | error e => rw [stepOp_approve_error h]; exact Or.inl rfl
    | ok p =>
      obtain ⟨v, r⟩ := p
      obtain ⟨_, hpend, _, hr⟩ := approve_report_ok_shape h
      simp only [stepOp, h]
      rw [hr]
      exact Or.inr (Or.inl ⟨hpend, rfl⟩)
  | reject c reason now =>
    cases h : reject_report s.vault s.report c reason with
    | error e => rw [stepOp_reject_error h]; exact Or.inl rfl
    | ok p =>
      obtain ⟨v, r⟩ := p
      obtain ⟨_, hpend, _, hr⟩ := reject_report_ok_shape h
      simp only [stepOp, h]
      rw [hr]
      exact Or.inr (Or.inr (Or.inl ⟨hpend, rfl⟩))
  | payout c now =>
    cases h : execute_payout s.vault s.report c now with
    | error e => rw [stepOp_payout_error h]; exact Or.inl rfl
    | ok p =>
      obtain ⟨v, r, amt⟩ := p
      obtain ⟨happr, _, _, hr, _⟩ := execute_payout_ok_shape h
      simp only [stepOp, h]
      rw [hr]
      exact Or.inr (Or.inr (Or.inr ⟨happr, rfl⟩))
  | mint c rk pn now => rw [stepOp_mint_report]; exact Or.inl rfl
  | fund amount => rw [stepOp_fund_report]; exact Or.inl rfl
  | toggle c => rw [stepOp_toggle_report]; exact Or.inl rfl
  | updateTiers c a b d e => rw [stepOp_updateTiers_report]; exact Or.inl rfl

/-- No instruction ever changes a report's `payout_amount`. -/
theorem stepOp_payout_amount (s : SysState) (op : Op) :
    ((stepOp s op).report).payout_amount = s.report.payout_amount := by
  cases op with
  | approve c reason now =>
    cases h : approve_report s.vault s.report c reason now with
    | error e => rw [stepOp_approve_error h]
    | ok p =>
      obtain ⟨v, r⟩ := p
      obtain ⟨_, _, _, hr⟩ := approve_report_ok_shape h
      simp only [stepOp, h]
      rw [hr]
  | reject c reason now =>
    cases h : reject_report s.vault s.report c reason with
    | error e => rw [stepOp_reject_error h]
    | ok p =>
      obtain ⟨v, r⟩ := p
      obtain ⟨_, _, _, hr⟩ := reject_report_ok_shape h
      simp only [stepOp, h]
      rw [hr]
  | payout c now =>
    cases h : execute_payout s.vault s.report c now with
    | error e => rw [stepOp_payout_error h]
    | ok p =>
      obtain ⟨v, r, amt⟩ := p
      obtain ⟨_, _, _, hr, _⟩ := execute_payout_ok_shape h
      simp only [stepOp, h]
      rw [hr]
  | mint c rk pn now => rw [stepOp_mint_report]
  | fund amount => rw [stepOp_fund_report]
  | toggle c => rw [stepOp_toggle_report]
  | updateTiers c a b d e => rw [stepOp_updateTiers_report]

/-! ## Claim theorems -/

/-- C1: contrary to the spec's transition table, a successful `approve_report`
does NOT increase the vault's stored `approved_reports` counter: the handler
increments the counter on a local clone of the vault that is immediately
dropped (lib.rs lines 185-186), and the `vault` account is not writable in the
`ApproveReport` context, so every successful approval returns the stored vault
bit-for-bit unchanged — `approved_reports` included. -/
theorem approve_report_stored_counter_unchanged
    (vault : BugBountyVault) (report : VulnerabilityReport)
    (caller : Pubkey) (reason : Option String) (now : Int)
    (vault' : BugBountyVault) (report' : VulnerabilityReport)
    (h : approve_report vault report caller reason now = Except.ok (vault', report')) :
    vault' = vault ∧ vault'.approved_reports = vault.approved_reports := by
  obtain ⟨_, _, hv, _⟩ := approve_report_ok_shape h
  exact ⟨hv, by rw [hv]⟩

/-- Witness for C1: governance authority `2` approves the pending fixture
report; the stored vault comes back unchanged, its counter still `0`. -/
theorem approve_report_stored_counter_unchanged_witness :
    testVault = testVault ∧ testVault.approved_reports = testVault.approved_reports :=
  approve_report_stored_counter_unchanged testVault testReport 2 (some "confirmed") 2
    testVault testApproved rfl

/-- C2: contrary to the spec, `submit_report` increments `total_reports` with
a plain unchecked `u64` addition (lib.rs line 158), not the
`checked_add`/`ArithmeticOverflow` pattern of `fund_vault`: an active vault
never makes `submit_report` fail with `ArithmeticOverflow`, and a vault whose
counter sits at `2 ^ 64 - 1` accepts the submission and wraps the counter to
`0`. -/
theorem submit_report_wraps_total_reports_at_u64_max :
    (∀ (v : BugBountyVault) (res : Pubkey) (sev : SeverityTier) (hash : IpfsHash)
        (vk : Pubkey) (b : Nat) (now : Int),
      submit_report v res sev hash vk b now = Except.error BugBountyError.VaultInactive
        ∨ ∃ out, submit_report v res sev hash vk b now = Except.ok out)
    ∧ ∃ (v' : BugBountyVault) (r' : VulnerabilityReport),
        submit_report { testVault with total_reports := U64_MOD - 1 }
            5 SeverityTier.High [3, 1, 4] 7 254 1 = Except.ok (v', r')
        ∧ v'.total_reports = 0 := by
  constructor
  · intro v res sev hash vk b now
    unfold submit_report
    split_ifs with h1
    · exact Or.inr ⟨_, rfl⟩
    · exact Or.inl rfl
  · exact ⟨_, _, rfl, by decide⟩

/-- C3: a second `execute_payout` on an already-paid report always fails with
`ReportNotApproved` and, the transaction being rolled back, changes neither
the report nor any vault counter. -/
theorem execute_payout_replay_fails (s : SysState) (caller : Pubkey) (now : Int)
    (h : s.report.status = ReportStatus.Paid) :
    execute_payout s.vault s.report caller now
        = Except.error BugBountyError.ReportNotApproved
    ∧ stepOp s (Op.payout caller now) = s := by
  have h1 : execute_payout s.vault s.report caller now
      = Except.error BugBountyError.ReportNotApproved := by
    unfold execute_payout
    rw [h]
    simp
  exact ⟨h1, stepOp_payout_error h1⟩

/-- Witness for C3: replaying the payout on the paid fixture report fails
with `ReportNotApproved` and leaves the state untouched. -/
theorem execute_payout_replay_fails_witness :
    execute_payout testVault testPaid 5 9 = Except.error BugBountyError.ReportNotApproved
    ∧ stepOp ⟨testVault, testPaid, testStore⟩ (Op.payout 5 9)
        = ⟨testVault, testPaid, testStore⟩ :=
  execute_payout_replay_fails ⟨testVault, testPaid, testStore⟩ 5 9 rfl

/-- C7: a successful `execute_payout` leaves the vault record — in particular
`total_paid_out` — completely unchanged (the handler performs no bookkeeping
and no solvency check on the vault), and rewrites the report only at `status`
(to `Paid`) and `paid_at`. -/
theorem execute_payout_vault_frame
    (vault : BugBountyVault) (report : VulnerabilityReport)
    (caller : Pubkey) (now : Int)
    (vault' : BugBountyVault) (report' : VulnerabilityReport) (amt : Nat)
    (h : execute_payout vault report caller now = Except.ok (vault', report', amt)) :
    vault' = vault ∧ vault'.total_paid_out = vault.total_paid_out ∧
      report' = { report with status := ReportStatus.Paid, paid_at := some now } := by
  obtain ⟨_, _, hv, hr, _⟩ := execute_payout_ok_shape h
  exact ⟨hv, by rw [hv], hr⟩

/-- Witness for C7: researcher `5` collects the approved fixture payout; the
vault comes back identical and the report is the paid fixture. -/
theorem execute_payout_vault_frame_witness :
    testVault = testVault ∧ testVault.total_paid_out = testVault.total_paid_out ∧
      testPaid = { testApproved with status := ReportStatus.Paid, paid_at := some 3 } :=
  execute_payout_vault_frame testVault testApproved 5 3 testVault testPaid 500 rfl

/-- C8: `fund_vault` adds `amount` to `total_funded` with `checked_add`: when
the sum fits in a `u64` it succeeds, transferring and recording exactly
`amount`; when it would overflow it fails with `ArithmeticOverflow` and the
rolled-back transaction leaves the state — `total_funded` included —
unchanged. -/
theorem fund_vault_checked_add (vault : BugBountyVault) (amount : Nat) :
    (vault.total_funded + amount < U64_MOD →
      fund_vault vault amount
        = Except.ok ({ vault with total_funded := vault.total_funded + amount }, amount))
    ∧ (U64_MOD ≤ vault.total_funded + amount →
      fund_vault vault amount = Except.error BugBountyError.ArithmeticOverflow
      ∧ ∀ report store, stepOp ⟨vault, report, store⟩ (Op.fund amount)
          = ⟨vault, report, store⟩) := by
  constructor
  · intro hlt
    unfold fund_vault checked_add
    rw [if_pos hlt]
  · intro hge
    have herr : fund_vault vault amount = Except.error BugBountyError.ArithmeticOverflow := by
      unfold fund_vault checked_add
      rw [if_neg (by omega)]
    exact ⟨herr, fun report store => stepOp_fund_error herr⟩

/-- Witness for C8: funding the fixture vault with 7 units succeeds and adds
exactly 7; funding it with `2 ^ 64` units fails with `ArithmeticOverflow` and
leaves the state unchanged. -/
theorem fund_vault_checked_add_witness :
    fund_vault testVault 7
        = Except.ok ({ testVault with total_funded := testVault.total_funded + 7 }, 7)
    ∧ fund_vault testVault U64_MOD = Except.error BugBountyError.ArithmeticOverflow
    ∧ stepOp ⟨testVault, testReport, testStore⟩ (Op.fund U64_MOD)
        = ⟨testVault, testReport, testStore⟩ := by
  have h7 := (fund_vault_checked_add testVault 7).1 (by decide)
  have hbig := (fund_vault_checked_add testVault U64_MOD).2 (by decide)
  exact ⟨h7, hbig.1, hbig.2 testReport testStore⟩

/-- C4: a freshly submitted report starts `Pending`, and along every sequence
of instructions the report's status only ever moves along the allowed
lifecycle edges `Pending → Approved`, `Pending → Rejected`,
`Approved → Paid` (or stays put): it never regresses and never skips a
state. -/
theorem report_lifecycle_no_regression :
    (∀ (v : BugBountyVault) (res : Pubkey) (sev : SeverityTier) (hash : IpfsHash)
        (vk : Pubkey) (b : Nat) (now : Int)
        (v' : BugBountyVault) (r' : VulnerabilityReport),
      submit_report v res sev hash vk b now = Except.ok (v', r') →
        r'.status = ReportStatus.Pending)
    ∧ ∀ (s : SysState) (ops : List Op),
        List.Chain allowedEdge s.report.status (statusTrace s ops) := by
  constructor
  · intro v res sev hash vk b now v' r' h
    exact (submit_report_ok_shape h).2.2.1
  · intro s ops
    induction ops generalizing s with
    | nil => exact List.Chain.nil
    | cons op ops ih =>
      simp only [statusTrace, runStates, List.map]
      exact List.Chain.cons (stepOp_status_edge s op) (ih (stepOp s op))

/-- Witness for C4: the fixture submission lands in `Pending`, and the
approve-then-payout run is a chain of allowed edges. -/
theorem report_lifecycle_no_regression_witness :
    testReport.status = ReportStatus.Pending
    ∧ List.Chain allowedEdge
        (SysState.mk testVaultAfterSubmit testReport testStore).report.status
        (statusTrace ⟨testVaultAfterSubmit, testReport, testStore⟩
          [Op.approve 2 (some "confirmed") 2, Op.payout 5 3]) :=
  ⟨report_lifecycle_no_regression.1 testVault 5 SeverityTier.High [3, 1, 4] 7 254 1
      testVaultAfterSubmit testReport rfl,
   report_lifecycle_no_regression.2 ⟨testVaultAfterSubmit, testReport, testStore⟩ _⟩

/-- C5: `payout_amount` is snapshotted at submission from the vault's current
schedule for the report's severity, no instruction ever rewrites it, and
`execute_payout` transfers exactly that snapshot; in the §8 scenario
(High=500 at submission, High raised to 900 after approval) the payout
transfers exactly 500 and the report becomes `Paid`. -/
theorem payout_amount_snapshot_immutable :
    (∀ (v : BugBountyVault) (res : Pubkey) (sev : SeverityTier) (hash : IpfsHash)
        (vk : Pubkey) (b : Nat) (now : Int)
        (v' : BugBountyVault) (r' : VulnerabilityReport),
      submit_report v res sev hash vk b now = Except.ok (v', r') →
        r'.payout_amount = reward_for_severity v sev)
    ∧ (∀ (s : SysState) (op : Op),
        ((stepOp s op).report).payout_amount = s.report.payout_amount)
    ∧ (∀ (v : BugBountyVault) (r : VulnerabilityReport) (c : Pubkey) (now : Int)
        (v' : BugBountyVault) (r' : VulnerabilityReport) (amt : Nat),
      execute_payout v r c now = Except.ok (v', r', amt) → amt = r.payout_amount)
    ∧ (submit_report testVault 5 SeverityTier.High [3, 1, 4] 7 254 1
          = Except.ok (testVaultAfterSubmit, testReport)
      ∧ testReport.payout_amount = 500
      ∧ approve_report testVaultAfterSubmit testReport 2 (some "confirmed") 2
          = Except.ok (testVaultAfterSubmit, testApproved)
      ∧ update_reward_tiers testVaultAfterSubmit 1 1000 900 200 50
          = Except.ok testVaultHigh900
      ∧ execute_payout testVaultHigh900 testApproved 5 3
          = Except.ok (testVaultHigh900, testPaid, 500)
      ∧ testPaid.status = ReportStatus.Paid) := by
  refine ⟨?_, stepOp_payout_amount, ?_, rfl, rfl, rfl, rfl, rfl, rfl⟩
  · intro v res sev hash vk b now v' r' h
    exact (submit_report_ok_shape h).2.2.2
  · intro v r c now v' r' amt h
    exact (execute_payout_ok_shape h).2.2.2.2

/-- Witness for C5: the fixture submission's snapshot equals the vault's High
reward, and the paid fixture still carries the original 500. -/
theorem payout_amount_snapshot_immutable_witness :
    testReport.payout_amount = reward_for_severity testVault SeverityTier.High
    ∧ testPaid.payout_amount = 500 :=
  ⟨payout_amount_snapshot_immutable.1 testVault 5 SeverityTier.High [3, 1, 4] 7 254 1
      testVaultAfterSubmit testReport rfl,
   payout_amount_snapshot_immutable.2.2.2.2.1⟩

/-- C6 counterexample: on the rejected fixture report (not `Pending`) a
non-governance caller `3` gets `NotGovernanceAuthority`, not the
`InvalidReportStatus` the claim promises for every non-Pending report — the
authority check runs first. -/
theorem approve_reject_nonpending_wrong_caller_cex :
    testRejected.status ≠ ReportStatus.Pending
    ∧ (3 : Pubkey) ≠ testVault.governance_authority
    ∧ approve_report testVault testRejected 3 none 5
        = Except.error BugBountyError.NotGovernanceAuthority
    ∧ approve_report testVault testRejected 3 none 5
        ≠ Except.error BugBountyError.InvalidReportStatus
    ∧ reject_report testVault testRejected 3 "duplicate"
        = Except.error BugBountyError.NotGovernanceAuthority
    ∧ reject_report testVault testRejected 3 "duplicate"
        ≠ Except.error BugBountyError.InvalidReportStatus := by
  have ha : approve_report testVault testRejected 3 none 5
      = Except.error BugBountyError.NotGovernanceAuthority := rfl
  have hr : reject_report testVault testRejected 3 "duplicate"
      = Except.error BugBountyError.NotGovernanceAuthority := rfl
  refine ⟨by decide, by decide, ha, ?_, hr, ?_⟩
  · intro h
    exact absurd (Except.error.inj (ha.symm.trans h)) (by decide)
  · intro h
    exact absurd (Except.error.inj (hr.symm.trans h)) (by decide)

/-- C6 (amended): the authority check precedes the status check — any
non-governance caller's approve/reject fails with `NotGovernanceAuthority`
whatever the status, the governance authority's approve/reject on a
non-`Pending` report fails with `InvalidReportStatus`, and in every failure
case the rolled-back transaction leaves the report (and everything else)
unchanged. -/
theorem approve_reject_guards (s : SysState) (caller : Pubkey)
    (reason : Option String) (rreason : String) (now : Int) :
    (caller ≠ s.vault.governance_authority →
        approve_report s.vault s.report caller reason now
            = Except.error BugBountyError.NotGovernanceAuthority
        ∧ reject_report s.vault s.report caller rreason
            = Except.error BugBountyError.NotGovernanceAuthority
        ∧ stepOp s (Op.approve caller reason now) = s
        ∧ stepOp s (Op.reject caller rreason now) = s)
    ∧ (caller = s.vault.governance_authority → s.report.status ≠ ReportStatus.Pending →
        approve_report s.vault s.report caller reason now
            = Except.error BugBountyError.InvalidReportStatus
        ∧ reject_report s.vault s.report caller rreason
            = Except.error BugBountyError.InvalidReportStatus
        ∧ stepOp s (Op.approve caller reason now) = s
        ∧ stepOp s (Op.reject caller rreason now) = s) := by
  constructor
  · intro hne
    have ha : approve_report s.vault s.report caller reason now
        = Except.error BugBountyError.NotGovernanceAuthority := by
      unfold approve_report
      rw [if_neg hne]
    have hr : reject_report s.vault s.report caller rreason
        = Except.error BugBountyError.NotGovernanceAuthority := by
      unfold reject_report
      rw [if_neg hne]
    exact ⟨ha, hr, stepOp_approve_error ha, stepOp_reject_error hr⟩
  · intro heq hst
    have ha : approve_report s.vault s.report caller reason now
        = Except.error BugBountyError.InvalidReportStatus := by
      unfold approve_report
      rw [if_pos heq, if_neg hst]
    have hr : reject_report s.vault s.report caller rreason
        = Except.error BugBountyError.InvalidReportStatus := by
      unfold reject_report
      rw [if_pos heq, if_neg hst]
    exact ⟨ha, hr, stepOp_approve_error ha, stepOp_reject_error hr⟩

/-- Witness for C6 (amended): caller `3` on the pending fixture gets
`NotGovernanceAuthority` with no state change; the governance authority `2`
on the rejected fixture gets `InvalidReportStatus` with no state change. -/
theorem approve_reject_guards_witness :
    (approve_report testVault testReport 3 none 5
        = Except.error BugBountyError.NotGovernanceAuthority
      ∧ reject_report testVault testReport 3 "duplicate"
        = Except.error BugBountyError.NotGovernanceAuthority
      ∧ stepOp ⟨testVault, testReport, testStore⟩ (Op.approve 3 none 5)
        = ⟨testVault, testReport, testStore⟩
      ∧ stepOp ⟨testVault, testReport, testStore⟩ (Op.reject 3 "duplicate" 5)
        = ⟨testVault, testReport, testStore⟩)
    ∧ (approve_report testVault testRejected 2 none 5
        = Except.error BugBountyError.InvalidReportStatus
      ∧ reject_report testVault testRejected 2 "duplicate"
        = Except.error BugBountyError.InvalidReportStatus
      ∧ stepOp ⟨testVault, testRejected, testStore⟩ (Op.approve 2 none 5)
        = ⟨testVault, testRejected, testStore⟩
      ∧ stepOp ⟨testVault, testRejected, testStore⟩ (Op.reject 2 "duplicate" 5)
        = ⟨testVault, testRejected, testStore⟩) :=
  ⟨(approve_reject_guards ⟨testVault, testReport, testStore⟩ 3 none "duplicate" 5).1
      (by decide),
   (approve_reject_guards ⟨testVault, testRejected, testStore⟩ 2 none "duplicate" 5).2
      rfl (by decide)⟩

/-- C9: minting a credential for a report that is not `Paid` fails with
`ReportNotPaid` (whenever no credential account already sits at the derived
address, which the program's own flow guarantees), minting when the derived
address `(report.researcher, report)` is already taken fails at
account-initialization, and therefore a second mint after a successful one
always fails: at most one credential per paid report. -/
theorem mint_requires_paid_and_unique :
    (∀ (store : CredentialStore) (r : VulnerabilityReport) (rk c : Pubkey)
        (pn : String) (now : Int),
      r.status ≠ ReportStatus.Paid → (r.researcher, rk) ∉ store.minted →
        mint_reputation_nft store r rk c pn now
          = Except.error (TxError.program BugBountyError.ReportNotPaid))
    ∧ (∀ (store : CredentialStore) (r : VulnerabilityReport) (rk c : Pubkey)
        (pn : String) (now : Int),
      (r.researcher, rk) ∈ store.minted →
        mint_reputation_nft store r rk c pn now
          = Except.error TxError.accountAlreadyInUse)
    ∧ (∀ (store store' : CredentialStore) (r : VulnerabilityReport) (rk c1 c2 : Pubkey)
        (pn1 pn2 : String) (n1 n2 : Int) (nft : ReputationNFT),
      mint_reputation_nft store r rk c1 pn1 n1 = Except.ok (store', nft) →
        mint_reputation_nft store' r rk c2 pn2 n2
          = Except.error TxError.accountAlreadyInUse) := by
  refine ⟨?_, ?_, ?_⟩
  · intro store r rk c pn now hstatus hfresh
    unfold mint_reputation_nft
    rw [if_neg hfresh, if_neg hstatus]
  · intro store r rk c pn now hmem
    unfold mint_reputation_nft
    rw [if_pos hmem]
  · intro store store' r rk c1 c2 pn1 pn2 n1 n2 nft h
    obtain ⟨_, _, hs, _⟩ := mint_reputation_nft_ok_shape h
    unfold mint_reputation_nft
    rw [if_pos (by rw [hs]; exact List.mem_cons_self _ _)]

/-- Witness for C9: minting on the approved (not yet paid) fixture fails with
`ReportNotPaid`; minting again once the credential for the paid fixture
exists fails at account initialization. -/
theorem mint_requires_paid_and_unique_witness :
    mint_reputation_nft testStore testApproved 7 5 "acme" 4
        = Except.error (TxError.program BugBountyError.ReportNotPaid)
    ∧ mint_reputation_nft testStoreMinted testPaid 7 5 "acme" 5
        = Except.error TxError.accountAlreadyInUse :=
  ⟨mint_requires_paid_and_unique.1 testStore testApproved 7 5 "acme" 4
      (by decide) (by decide),
   mint_requires_paid_and_unique.2.1 testStoreMinted testPaid 7 5 "acme" 5 (by decide)⟩

/-- C10: `mint_reputation_nft` never reads the signing caller (it only pays
rent): on a paid report with no existing credential, any two callers get the
identical successful result, and the minted credential's `researcher` field
is the report's researcher, not the caller. -/
theorem mint_caller_independent (store : CredentialStore) (r : VulnerabilityReport)
    (rk c1 c2 : Pubkey) (pn : String) (now : Int)
    (hpaid : r.status = ReportStatus.Paid)
    (hfresh : (r.researcher, rk) ∉ store.minted) :
    ∃ (store' : CredentialStore) (nft : ReputationNFT),
      mint_reputation_nft store r rk c1 pn now = Except.ok (store', nft)
      ∧ mint_reputation_nft store r rk c2 pn now = Except.ok (store', nft)
      ∧ nft.researcher = r.researcher := by
  refine ⟨{ minted := (r.researcher, rk) :: store.minted },
    { researcher := r.researcher, vault := r.vault, report := rk,
      severity := r.severity, project_name := pn, minted_at := now },
    ?_, ?_, rfl⟩ <;>
    · unfold mint_reputation_nft
      rw [if_neg hfresh, if_pos hpaid]

/-- Witness for C10: two distinct callers `8` and `9` mint the same
credential for the paid fixture report, whose researcher is `5`. -/
theorem mint_caller_independent_witness :
    ∃ (store' : CredentialStore) (nft : ReputationNFT),
      mint_reputation_nft testStore testPaid 7 8 "acme" 4 = Except.ok (store', nft)
      ∧ mint_reputation_nft testStore testPaid 7 9 "acme" 4 = Except.ok (store', nft)
      ∧ nft.researcher = testPaid.researcher :=
  mint_caller_independent testStore testPaid 7 8 9 "acme" 4 rfl (by decide)

end BugBounty
